import Mathlib

/-!
Shallow embedding of the Subscription-API repository:
  * `src/subscription_service/main.py` — the Registry (FastAPI + SQLAlchemy/SQLite)
  * `src/event_listener/event_listener.py` — the Listener (FastAPI, in-memory log)

The SQLite store is a list of rows; timestamps are abstract (`Nat` for
`datetime` values, `String` for `isoformat()` strings); the outbound HTTP
POST of `requests.post` + `raise_for_status` is an oracle parameter
`post : url → payload → Except String Unit` whose `.error e` case stands for
a raised `requests.RequestException` (transport error or non-2xx status).
-/

namespace SubApi

/-- HTTPException of FastAPI: a status code plus a textual detail. -/
structure HTTPError where
  status_code : Nat
  detail : String
deriving Repr, DecidableEq

def unauthorizedError : HTTPError := ⟨401, "Invalid or missing credentials"⟩

def notFoundError : HTTPError := ⟨404, "Subscription not found"⟩

def inactiveError : HTTPError := ⟨400, "Inactive subscription"⟩

/-- FastAPI body-validation failure (pydantic), surfaced as 422. -/
def validationFailed : HTTPError := ⟨422, "Unprocessable Entity"⟩

/-- Unhandled server error (e.g. an IntegrityError escaping the handler). -/
def internalError : HTTPError := ⟨500, "Internal Server Error"⟩

/-! ## Registry data model (main.py lines 21–31) -/

/-- One row of the `subscriptions` table (class `Subscription`, main.py 21–28):
`id` integer primary key, `notification_url` NOT NULL string, `event_type`
nullable string, `created_at` datetime defaulted to `utcnow`, `is_active`
boolean defaulted to `True`. -/
structure Subscription where
  id : Nat
  notification_url : String
  event_type : Option String
  created_at : Nat
  is_active : Bool
deriving Repr, DecidableEq

/-- The SQLite table, in rowid order. -/
abbrev Store := List Subscription

/-- SQLite rowid assignment for `id INTEGER PRIMARY KEY` without
AUTOINCREMENT (what SQLAlchemy emits for `Column(Integer, primary_key=True)`):
the new rowid is one more than the largest rowid currently in the table,
and 1 when the table is empty. -/
def nextId (db : Store) : Nat :=
  (db.map (·.id)).foldr max 0 + 1

/-! ## Pydantic schemas (main.py lines 35–43) -/

/-- Parsed `SubscriptionCreate` (main.py 35–37): `notification_url: str`
required, `event_type: Optional[str] = None`. -/
structure SubscriptionCreate where
  notification_url : String
  event_type : Option String
deriving Repr, DecidableEq

/-- Raw JSON body for the create endpoint before pydantic validation: the
outer `Option` is presence of the key in the JSON object, the inner `Option`
is JSON null vs a string value. -/
structure CreateBody where
  notification_url : Option (Option String)
  event_type : Option (Option String)
deriving Repr, DecidableEq

/-- Pydantic validation of `SubscriptionCreate`: `notification_url` must be
present and a string (absent or null → 422, any string — there is no URL
syntax check); `event_type` defaults to None when absent and accepts null. -/
def parseCreate (b : CreateBody) : Except HTTPError SubscriptionCreate :=
  match b.notification_url with
  | some (some url) =>
      .ok ⟨url, match b.event_type with
                | some v => v
                | none => none⟩
  | _ => .error validationFailed

/-- Parsed `SubscriptionUpdate` (main.py 40–43), keeping pydantic's
distinction between an unset field and an explicit JSON null (surviving
`dict(exclude_unset=True)`): the outer `Option` is set/unset. For
`event_type` the inner `Option` is null vs string. `notification_url` set
to null hits the NOT NULL column constraint at commit (not exercised by any
claim); an explicit null for `is_active` is outside this embedding. -/
structure SubscriptionUpdate where
  notification_url : Option (Option String)
  event_type : Option (Option String)
  is_active : Option Bool
deriving Repr, DecidableEq

/-! ## Authentication (main.py lines 57–80) -/

def VALID_TOKEN : String := "secret-token"

/-- What `HTTPBearer(auto_error=False)` injects from the Authorization
header: a scheme and the credential string. -/
structure HTTPAuthorizationCredentials where
  scheme : String
  credentials : String
deriving Repr, DecidableEq

/-- The three credential sources of `authenticate` (main.py 62–66). -/
structure AuthInput where
  credentials : Option HTTPAuthorizationCredentials
  x_access_token : Option String
  plain_token : Option String
deriving Repr, DecidableEq

/-- Python truthiness of an optional string: None and "" are falsy. -/
def pyTruthy : Option String → Bool
  | none => false
  | some s => s ≠ ""

/-- Token selection of `authenticate` (main.py 67–73): `if credentials and
credentials.scheme == "Bearer"` takes the bearer credential, `elif
x_access_token`, `elif plain_token` — first match wins, in that order. -/
def authTokenOf (a : AuthInput) : Option String :=
  match a.credentials with
  | some c =>
      if c.scheme == "Bearer" then some c.credentials
      else if pyTruthy a.x_access_token then a.x_access_token
      else if pyTruthy a.plain_token then a.plain_token
      else none
  | none =>
      if pyTruthy a.x_access_token then a.x_access_token
      else if pyTruthy a.plain_token then a.plain_token
      else none

/-- `authenticate` (main.py 62–80): `if not token or token != VALID_TOKEN`
raises 401, otherwise the token is returned. -/
def authenticate (a : AuthInput) : Except HTTPError String :=
  match authTokenOf a with
  | none => .error unauthorizedError
  | some t => if t == "" || t != VALID_TOKEN then .error unauthorizedError else .ok t

/-! ## Registry endpoint handlers (main.py lines 97–188) -/

/-- `create_subscription` (main.py 106–117): builds a row from the validated
body (`Subscription(**subscription.dict())`), the store assigns `id` and the
column defaults set `created_at = utcnow` and `is_active = True`; the row is
committed and returned. -/
def create_subscription (db : Store) (sc : SubscriptionCreate) (now : Nat) :
    Subscription × Store :=
  let s : Subscription :=
    { id := nextId db
      notification_url := sc.notification_url
      event_type := sc.event_type
      created_at := now
      is_active := true }
  (s, db ++ [s])

/-- Replace the first row with the given id (`setattr` on the ORM object
returned by `.first()`, then commit). -/
def updateFirst (db : Store) (sub_id : Nat) (s' : Subscription) : Store :=
  match db with
  | [] => []
  | s :: rest => if s.id == sub_id then s' :: rest else s :: updateFirst rest sub_id s'

/-- Remove the first row with the given id (`db.delete` of the object
returned by `.first()`, then commit). -/
def eraseFirst (db : Store) (sub_id : Nat) : Store :=
  match db with
  | [] => []
  | s :: rest => if s.id == sub_id then rest else s :: eraseFirst rest sub_id

/-- `update_subscription` (main.py 120–138): 404 when the id is absent;
otherwise `subscription.dict(exclude_unset=True)` is applied field by field
with `setattr` — unset fields are not touched, an explicit null for
`event_type` is applied as NULL. A null for `notification_url` violates the
NOT NULL constraint at commit (500, nothing committed). -/
def update_subscription (db : Store) (sub_id : Nat) (u : SubscriptionUpdate) :
    Except HTTPError Subscription × Store :=
  match db.find? (fun s => s.id == sub_id) with
  | none => (.error notFoundError, db)
  | some s =>
      match u.notification_url with
      | some none => (.error internalError, db)
      | nu =>
          let s' : Subscription :=
            { s with
              notification_url := match nu with
                                  | some (some v) => v
                                  | _ => s.notification_url
              event_type := match u.event_type with
                            | some v => v
                            | none => s.event_type
              is_active := u.is_active.getD s.is_active }
          (.ok s', updateFirst db sub_id s')

/-- `delete_subscription` (main.py 141–154): 404 when the id is absent,
otherwise the row is removed unconditionally. -/
def delete_subscription (db : Store) (sub_id : Nat) :
    Except HTTPError Unit × Store :=
  match db.find? (fun s => s.id == sub_id) with
  | none => (.error notFoundError, db)
  | some _ => (.ok (), eraseFirst db sub_id)

/-- The JSON body posted by `notify_subscription` (main.py 174–179). -/
structure NotificationPayload where
  status : String
  subscription_id : Nat
  event_type : Option String
  timestamp : String
deriving Repr, DecidableEq

/-- `notify_subscription` (main.py 157–188): 404 when the id is absent, 400
"Inactive subscription" when `is_active` is falsy; otherwise one POST of
`{status: "success", subscription_id, event_type, timestamp: utcnow}` to the
stored URL; a `RequestException` (transport error, or non-success status via
`raise_for_status`) becomes a 500 whose detail carries the underlying error,
otherwise the success message is returned. The second component is the list
of outbound (url, payload) requests issued; the store is returned unchanged
(the handler never writes). -/
def notify_subscription (db : Store) (sub_id : Nat) (nowIso : String)
    (post : String → NotificationPayload → Except String Unit) :
    Except HTTPError String × List (String × NotificationPayload) × Store :=
  match db.find? (fun s => s.id == sub_id) with
  | none => (.error notFoundError, [], db)
  | some s =>
      if !s.is_active then (.error inactiveError, [], db)
      else
        let payload : NotificationPayload := ⟨"success", sub_id, s.event_type, nowIso⟩
        match post s.notification_url payload with
        | .error e => (.error ⟨500, "Notification failed: " ++ e⟩,
                       [(s.notification_url, payload)], db)
        | .ok _ => (.ok "Notification sent successfully",
                    [(s.notification_url, payload)], db)

/-! ## Registry requests as served (auth + body validation + handler) -/

inductive RegistryRequest where
  | listReq
  | createReq (body : CreateBody)
  | updateReq (sub_id : Nat) (body : SubscriptionUpdate)
  | deleteReq (sub_id : Nat)
  | notifyReq (sub_id : Nat)
deriving Repr, DecidableEq

inductive RegistryResult where
  | subs (l : List Subscription)
  | sub (s : Subscription)
  | noContent
  | message (m : String)
deriving Repr, DecidableEq

/-- One Registry request as FastAPI serves it: the `authenticate` dependency
runs first (a 401 escapes before the handler and before body validation),
then the body is validated, then the handler runs. The result also carries
the store after the request and the outbound POSTs issued. -/
def handleRequest (a : AuthInput) (req : RegistryRequest) (db : Store)
    (now : Nat) (nowIso : String)
    (post : String → NotificationPayload → Except String Unit) :
    Except HTTPError RegistryResult × Store × List (String × NotificationPayload) :=
  match authenticate a with
  | .error e => (.error e, db, [])
  | .ok _ =>
      match req with
      | .listReq => (.ok (.subs db), db, [])
      | .createReq body =>
          match parseCreate body with
          | .error e => (.error e, db, [])
          | .ok sc =>
              let r := create_subscription db sc now
              (.ok (.sub r.1), r.2, [])
      | .updateReq i u =>
          let r := update_subscription db i u
          (r.1.map .sub, r.2, [])
      | .deleteReq i =>
          let r := delete_subscription db i
          (r.1.map fun _ => .noContent, r.2, [])
      | .notifyReq i =>
          let r := notify_subscription db i nowIso post
          (r.1.map .message, r.2.2, r.2.1)

/-! ## Listener (event_listener.py) -/

/-- Validated inbound payload (`class Notification`, event_listener.py):
`status: str`, `subscription_id: int`, `event_type: str` (a required
string — null is rejected), `timestamp: datetime` (kept abstract as the
string it was parsed from). -/
structure Notification where
  status : String
  subscription_id : Nat
  event_type : String
  timestamp : String
deriving Repr, DecidableEq

/-- Raw inbound JSON for `/receive`: `none` stands for an absent key or a
JSON null — either fails the required-field validation. -/
structure RawNotification where
  status : Option String
  subscription_id : Option Nat
  event_type : Option String
  timestamp : Option String
deriving Repr, DecidableEq

/-- Pydantic validation of `Notification`: all four fields must be present
with the right type; in particular `event_type` must be a string. -/
def parseNotification (r : RawNotification) : Option Notification :=
  match r.status, r.subscription_id, r.event_type, r.timestamp with
  | some st, some sid, some et, some ts => some ⟨st, sid, et, ts⟩
  | _, _, _, _ => none

/-- One entry of `received_notifications`: the arrival timestamp plus the
verbatim validated payload. -/
structure InboundRecord where
  received_at : String
  notification : Notification
deriving Repr, DecidableEq

/-- `receive_notification` (event_listener.py 31–48): a payload failing
validation is rejected by FastAPI with 422 before the handler runs and the
log is untouched; otherwise `{received_at: utcnow, notification}` is
appended and the acknowledgment returned. -/
def receive_notification (log : List InboundRecord) (raw : RawNotification)
    (now : String) : Except HTTPError String × List InboundRecord :=
  match parseNotification raw with
  | none => (.error validationFailed, log)
  | some n => (.ok "Notification processed successfully", log ++ [⟨now, n⟩])

/-- The JSON object `notify_subscription` posts, as the Listener receives
it: a None `event_type` arrives as JSON null. -/
def payloadToRaw (p : NotificationPayload) : RawNotification :=
  ⟨some p.status, some p.subscription_id, p.event_type, some p.timestamp⟩

/-- Python list slice `l[start:]` (step 1, stop omitted): a negative start
counts from the end and clamps at 0, a non-negative start clamps at the
length. -/
def pySliceFrom (l : List α) (start : Int) : List α :=
  let n : Int := l.length
  let idx : Int := if start < 0 then max (n + start) 0 else min start n
  l.drop idx.toNat

/-- `get_notifications` (event_listener.py 57–60): returns
`received_notifications[-limit:]`. -/
def get_notifications (log : List InboundRecord) (limit : Int) : List InboundRecord :=
  pySliceFrom log (-limit)

/-- `clear_notifications` (event_listener.py 63–67): empties the log. -/
def clear_notifications (_log : List InboundRecord) : List InboundRecord := []

/-! ## Operation sequences over the Registry store (for the id-reuse claim) -/

inductive Op where
  | create (url : String) (et : Option String)
  | delete (sub_id : Nat)
deriving Repr, DecidableEq

inductive Ev where
  | created (id : Nat)
  | deleted (id : Nat)
deriving Repr, DecidableEq

/-- Run a sequence of create/delete requests against the store, recording
which ids were assigned and which were (successfully) deleted, in order. -/
def runOps (db : Store) : List Op → Store × List Ev
  | [] => (db, [])
  | Op.create url et :: rest =>
      let r := create_subscription db ⟨url, et⟩ 0
      let t := runOps r.2 rest
      (t.1, Ev.created r.1.id :: t.2)
  | Op.delete i :: rest =>
      match delete_subscription db i with
      | (.ok _, db') =>
          let t := runOps db' rest
          (t.1, Ev.deleted i :: t.2)
      | (.error _, db') =>
          let t := runOps db' rest
          (t.1, t.2)

/-- Decides whether some id is created after an event that deleted the same
id — the reuse the spec's invariant forbids. -/
def idReuse : List Ev → Bool
  | [] => false
  | Ev.deleted d :: rest => rest.contains (Ev.created d) || idReuse rest
  | Ev.created _ :: rest => idReuse rest

/-! ## Helper lemmas -/

theorem le_foldr_max (l : List Nat) (x : Nat) (hx : x ∈ l) : x ≤ l.foldr max 0 := by
  induction l with
  | nil => cases hx
  | cons a t ih =>
      rcases List.mem_cons.mp hx with h | h
      · subst h; exact le_max_left _ _
      · exact le_trans (ih h) (le_max_right _ _)

theorem authenticate_fail (a : AuthInput) (h : authTokenOf a ≠ some VALID_TOKEN) :
    authenticate a = .error unauthorizedError := by
  unfold authenticate
  cases hta : authTokenOf a with
  | none => rfl
  | some t =>
      have ht : t ≠ VALID_TOKEN := by rintro rfl; exact h hta
      have hb : (t != VALID_TOKEN) = true := by simpa using ht
      simp [hb]

/-! ## Claims -/

/-- C1 (counterexample): the spec's invariant "`id` is never reused after
deletion" fails on the code: with `id INTEGER PRIMARY KEY` (no
AUTOINCREMENT) SQLite assigns max(rowid)+1, so after create, create,
delete 2, a further create assigns id 2 again — the id of the subscription
just deleted. -/
theorem id_reuse_counterexample :
    idReuse (runOps [] [.create "u" none, .create "u" none,
      .delete 2, .create "u" none]).2 = true := by
  rfl

/-- C1 (amended): create assigns `id = nextId db`, one more than the largest
id currently stored, so a created id is strictly greater than — in
particular never equal to — the id of any row present at creation time; an
id can coincide with that of a previously deleted subscription only when
the deleted id exceeded every id surviving in the store. -/
theorem create_id_exceeds_current :
    ∀ (db : Store) (sc : SubscriptionCreate) (now : Nat),
      (create_subscription db sc now).1.id = nextId db ∧
      ∀ s ∈ db, s.id < (create_subscription db sc now).1.id := by
  intro db sc now
  refine ⟨rfl, fun s hs => ?_⟩
  show s.id < nextId db
  exact Nat.lt_succ_of_le (le_foldr_max _ _ (List.mem_map_of_mem (·.id) hs))

/-- C1 (witness): instantiating the amended claim on a one-row store. -/
theorem create_id_exceeds_current_witness :
    (create_subscription [⟨5, "u", none, 0, true⟩] ⟨"v", none⟩ 3).1.id = nextId [⟨5, "u", none, 0, true⟩] ∧
    (⟨5, "u", none, 0, true⟩ : Subscription).id
      < (create_subscription [⟨5, "u", none, 0, true⟩] ⟨"v", none⟩ 3).1.id :=
  ⟨(create_id_exceeds_current [⟨5, "u", none, 0, true⟩] ⟨"v", none⟩ 3).1,
   (create_id_exceeds_current [⟨5, "u", none, 0, true⟩] ⟨"v", none⟩ 3).2
     ⟨5, "u", none, 0, true⟩ (List.mem_singleton.mpr rfl)⟩

/-- C2: create validates only presence of `notification_url` (absent or
null → 422; any string accepted with no URL-syntax check, `event_type`
optional) and on success allocates a fresh id, sets `created_at` to the
current time and `is_active = true`, appends the row to the store, and
returns exactly the persisted record. -/
theorem create_spec :
    (∀ b : CreateBody, b.notification_url = none →
       parseCreate b = .error validationFailed) ∧
    (∀ b : CreateBody, b.notification_url = some none →
       parseCreate b = .error validationFailed) ∧
    (∀ (b : CreateBody) (url : String), url ≠ "" →
       b.notification_url = some (some url) →
       parseCreate b = .ok ⟨url, match b.event_type with
                                 | some v => v
                                 | none => none⟩) ∧
    (∀ (db : Store) (sc : SubscriptionCreate) (now : Nat),
       (create_subscription db sc now).1.is_active = true ∧
       (create_subscription db sc now).1.created_at = now ∧
       (create_subscription db sc now).1.notification_url = sc.notification_url ∧
       (create_subscription db sc now).1.event_type = sc.event_type ∧
       (∀ s ∈ db, s.id ≠ (create_subscription db sc now).1.id) ∧
       (create_subscription db sc now).2 = db ++ [(create_subscription db sc now).1]) := by
  refine ⟨fun b hb => ?_, fun b hb => ?_, fun b url _ hb => ?_, fun db sc now => ?_⟩
  · simp [parseCreate, hb]
  · simp [parseCreate, hb]
  · simp [parseCreate, hb]
  · refine ⟨rfl, rfl, rfl, rfl, fun s hs => ?_, rfl⟩
    have : s.id < nextId db :=
      Nat.lt_succ_of_le (le_foldr_max _ _ (List.mem_map_of_mem (·.id) hs))
    exact Nat.ne_of_lt this

/-- C2 (witness): the validation and creation effects at concrete inputs. -/
theorem create_spec_witness :
    parseCreate ⟨none, some (some "e")⟩ = .error validationFailed ∧
    parseCreate ⟨some none, none⟩ = .error validationFailed ∧
    parseCreate ⟨some (some "not a url"), none⟩ = .ok ⟨"not a url", none⟩ ∧
    (⟨1, "u", none, 0, true⟩ : Subscription).id
      ≠ (create_subscription [⟨1, "u", none, 0, true⟩] ⟨"not a url", none⟩ 7).1.id :=
  ⟨create_spec.1 ⟨none, some (some "e")⟩ rfl,
   create_spec.2.1 ⟨some none, none⟩ rfl,
   create_spec.2.2.1 ⟨some (some "not a url"), none⟩ "not a url" (by decide) rfl,
   (create_spec.2.2.2 [⟨1, "u", none, 0, true⟩] ⟨"not a url", none⟩ 7).2.2.2.2.1
     ⟨1, "u", none, 0, true⟩ (List.mem_singleton.mpr rfl)⟩

/-- C3: the credential is selected by precedence Authorization Bearer, then
x-access-token, then plain_token (first match wins, as `authTokenOf`
mirrors); whenever the selected token is absent or differs from the
configured secret, every Registry request answers Unauthorized with the
store untouched and no outbound POST issued — in particular a wrong Bearer
token together with a correct x-access-token is rejected. -/
theorem auth_gate :
    (∀ (a : AuthInput) (req : RegistryRequest) (db : Store) (now : Nat)
       (nowIso : String) (post : String → NotificationPayload → Except String Unit),
       authTokenOf a ≠ some VALID_TOKEN →
       handleRequest a req db now nowIso post = (.error unauthorizedError, db, [])) ∧
    (∀ (req : RegistryRequest) (db : Store) (now : Nat) (nowIso : String)
       (post : String → NotificationPayload → Except String Unit),
       handleRequest ⟨some ⟨"Bearer", "wrong-token"⟩, some VALID_TOKEN, none⟩
         req db now nowIso post = (.error unauthorizedError, db, [])) := by
  have key : ∀ (a : AuthInput) (req : RegistryRequest) (db : Store) (now : Nat)
      (nowIso : String) (post : String → NotificationPayload → Except String Unit),
      authTokenOf a ≠ some VALID_TOKEN →
      handleRequest a req db now nowIso post = (.error unauthorizedError, db, []) := by
    intro a req db now nowIso post h
    unfold handleRequest
    rw [authenticate_fail a h]
  exact ⟨key, fun req db now nowIso post =>
    key ⟨some ⟨"Bearer", "wrong-token"⟩, some VALID_TOKEN, none⟩ req db now nowIso post
      (by decide)⟩

/-- C3 (witness): a request with no credential at all is rejected and the
store is unchanged. -/
theorem auth_gate_witness :
    handleRequest ⟨none, none, none⟩ .listReq [] 0 "t" (fun _ _ => .ok ())
      = (.error unauthorizedError, [], []) :=
  auth_gate.1 ⟨none, none, none⟩ .listReq [] 0 "t" (fun _ _ => .ok ()) (by decide)

/-- C4: a partial update of an existing subscription applies only the
fields carried by the request body (those surviving `exclude_unset`) and
leaves every other field untouched; `id` and `created_at` are never
changed, and updating only `event_type` leaves `notification_url` and
`is_active` exactly as stored. -/
theorem update_partial :
    (∀ (db : Store) (sub_id : Nat) (u : SubscriptionUpdate) (s s' : Subscription)
       (db' : Store),
       db.find? (fun x => x.id == sub_id) = some s →
       update_subscription db sub_id u = (.ok s', db') →
       s'.id = s.id ∧ s'.created_at = s.created_at ∧
       (u.notification_url = none → s'.notification_url = s.notification_url) ∧
       (u.event_type = none → s'.event_type = s.event_type) ∧
       (u.is_active = none → s'.is_active = s.is_active) ∧
       db' = updateFirst db sub_id s') ∧
    (∀ (db : Store) (sub_id : Nat) (s : Subscription) (et : Option String),
       db.find? (fun x => x.id == sub_id) = some s →
       update_subscription db sub_id ⟨none, some et, none⟩
         = (.ok { s with event_type := et },
            updateFirst db sub_id { s with event_type := et })) := by
  constructor
  · intro db sub_id u s s' db' hfind heq
    rcases u with ⟨nu, et, ia⟩
    rcases nu with _ | nv
    · simp only [update_subscription, hfind] at heq
      obtain ⟨h1, h2⟩ := Prod.mk.injEq .. ▸ heq
      obtain rfl := (Except.ok.injEq ..).mp h1.symm
      refine ⟨rfl, rfl, fun _ => rfl, fun h => ?_, fun h => ?_, h2.symm⟩
      · cases h; rfl
      · cases h; rfl
    · rcases nv with _ | v
      · simp [update_subscription, hfind] at heq
      · simp only [update_subscription, hfind] at heq
        obtain ⟨h1, h2⟩ := Prod.mk.injEq .. ▸ heq
        obtain rfl := (Except.ok.injEq ..).mp h1.symm
        refine ⟨rfl, rfl, fun h => ?_, fun h => ?_, fun h => ?_, h2.symm⟩
        · cases h
        · cases h; rfl
        · cases h; rfl
  · intro db sub_id s et hfind
    simp [update_subscription, hfind]

/-- C4 (witness): updating only `event_type` on a concrete one-row store. -/
theorem update_partial_witness :
    update_subscription [⟨1, "http://cb", some "a", 0, true⟩] 1 ⟨none, some (some "b"), none⟩
      = (.ok { (⟨1, "http://cb", some "a", 0, true⟩ : Subscription) with event_type := some "b" },
         updateFirst [⟨1, "http://cb", some "a", 0, true⟩] 1
           { (⟨1, "http://cb", some "a", 0, true⟩ : Subscription) with event_type := some "b" }) :=
  update_partial.2 [⟨1, "http://cb", some "a", 0, true⟩] 1
    ⟨1, "http://cb", some "a", 0, true⟩ (some "b") rfl

/-- C9: a PATCH body carrying an explicit `event_type: null` is a supplied
field — `exclude_unset` keeps it — so the update stores NULL for
`event_type` instead of leaving it untouched. -/
theorem update_explicit_null :
    ∀ (db : Store) (sub_id : Nat) (s : Subscription),
      db.find? (fun x => x.id == sub_id) = some s →
      update_subscription db sub_id ⟨none, some none, none⟩
        = (.ok { s with event_type := none },
           updateFirst db sub_id { s with event_type := none }) := by
  intro db sub_id s hfind
  simp [update_subscription, hfind]

/-- C9 (witness): nulling `event_type` on a row that had one. -/
theorem update_explicit_null_witness :
    update_subscription [⟨1, "http://cb", some "a", 0, true⟩] 1 ⟨none, some none, none⟩
      = (.ok { (⟨1, "http://cb", some "a", 0, true⟩ : Subscription) with event_type := none },
         updateFirst [⟨1, "http://cb", some "a", 0, true⟩] 1
           { (⟨1, "http://cb", some "a", 0, true⟩ : Subscription) with event_type := none }) :=
  update_explicit_null [⟨1, "http://cb", some "a", 0, true⟩] 1
    ⟨1, "http://cb", some "a", 0, true⟩ rfl

/-- C5: deliver answers NotFound when the id is absent, and 400 (the spec's
PreconditionFailed) when the subscription exists but `is_active` is false;
in both cases no outbound POST is issued and the store is unchanged. -/
theorem notify_absent_or_inactive :
    (∀ (db : Store) (sub_id : Nat) (nowIso : String)
       (post : String → NotificationPayload → Except String Unit),
       db.find? (fun s => s.id == sub_id) = none →
       notify_subscription db sub_id nowIso post = (.error notFoundError, [], db)) ∧
    (∀ (db : Store) (sub_id : Nat) (nowIso : String)
       (post : String → NotificationPayload → Except String Unit) (s : Subscription),
       db.find? (fun x => x.id == sub_id) = some s →
       s.is_active = false →
       notify_subscription db sub_id nowIso post = (.error inactiveError, [], db)) := by
  constructor
  · intro db sub_id nowIso post hfind
    simp [notify_subscription, hfind]
  · intro db sub_id nowIso post s hfind hact
    simp [notify_subscription, hfind, hact]

/-- C5 (witness): delivery to an empty store and to an inactive row. -/
theorem notify_absent_or_inactive_witness :
    notify_subscription [] 1 "t" (fun _ _ => .ok ())
      = (.error notFoundError, [], []) ∧
    notify_subscription [⟨1, "http://cb", some "e", 0, false⟩] 1 "t" (fun _ _ => .ok ())
      = (.error inactiveError, [], [⟨1, "http://cb", some "e", 0, false⟩]) :=
  ⟨notify_absent_or_inactive.1 [] 1 "t" (fun _ _ => .ok ()) rfl,
   notify_absent_or_inactive.2 [⟨1, "http://cb", some "e", 0, false⟩] 1 "t"
     (fun _ _ => .ok ()) ⟨1, "http://cb", some "e", 0, false⟩ rfl rfl⟩

/-- C6: deliver on an existing active subscription issues exactly one POST,
to the stored `notification_url`, whose body is `{status: "success",
subscription_id: id, event_type: stored value, timestamp: now}`; a raised
transport error or non-success status becomes a 500 carrying the
underlying error text, otherwise the success acknowledgment is returned. -/
theorem notify_active :
    ∀ (db : Store) (sub_id : Nat) (nowIso : String)
      (post : String → NotificationPayload → Except String Unit) (s : Subscription),
      db.find? (fun x => x.id == sub_id) = some s →
      s.is_active = true →
      (notify_subscription db sub_id nowIso post).2.1
          = [(s.notification_url, ⟨"success", sub_id, s.event_type, nowIso⟩)] ∧
      (∀ e, post s.notification_url ⟨"success", sub_id, s.event_type, nowIso⟩ = .error e →
         (notify_subscription db sub_id nowIso post).1
           = .error ⟨500, "Notification failed: " ++ e⟩) ∧
      (∀ u, post s.notification_url ⟨"success", sub_id, s.event_type, nowIso⟩ = .ok u →
         (notify_subscription db sub_id nowIso post).1
           = .ok "Notification sent successfully") := by
  intro db sub_id nowIso post s hfind hact
  refine ⟨?_, fun e he => ?_, fun u hu => ?_⟩
  · rcases hp : post s.notification_url ⟨"success", sub_id, s.event_type, nowIso⟩ with e | v <;>
      simp [notify_subscription, hfind, hact, hp]
  · simp [notify_subscription, hfind, hact, he]
  · simp [notify_subscription, hfind, hact, hu]

/-- C6 (witness): a concrete delivery through a succeeding transport and a
failing one. -/
theorem notify_active_witness :
    (notify_subscription [⟨1, "http://cb", some "e", 0, true⟩] 1 "ts" (fun _ _ => .ok ())).2.1
        = [("http://cb", ⟨"success", 1, some "e", "ts"⟩)] ∧
    (notify_subscription [⟨1, "http://cb", some "e", 0, true⟩] 1 "ts" (fun _ _ => .ok ())).1
        = .ok "Notification sent successfully" ∧
    (notify_subscription [⟨1, "http://cb", some "e", 0, true⟩] 1 "ts"
        (fun _ _ => .error "boom")).1
        = .error ⟨500, "Notification failed: " ++ "boom"⟩ :=
  ⟨(notify_active [⟨1, "http://cb", some "e", 0, true⟩] 1 "ts" (fun _ _ => .ok ())
      ⟨1, "http://cb", some "e", 0, true⟩ rfl rfl).1,
   (notify_active [⟨1, "http://cb", some "e", 0, true⟩] 1 "ts" (fun _ _ => .ok ())
      ⟨1, "http://cb", some "e", 0, true⟩ rfl rfl).2.2 () rfl,
   (notify_active [⟨1, "http://cb", some "e", 0, true⟩] 1 "ts" (fun _ _ => .error "boom")
      ⟨1, "http://cb", some "e", 0, true⟩ rfl rfl).2.1 "boom" rfl⟩

theorem drop_min_length (l : List α) (k : Nat) :
    l.drop (min k l.length) = l.drop k := by
  rcases le_total k l.length with h | h
  · rw [min_eq_left h]
  · rw [min_eq_right h, List.drop_length, List.drop_eq_nil_of_le h]

/-- C7: for every positive `limit`, `get_notifications` returns a suffix of
the log — the most recent entries, in arrival order — of length
`min limit (log length)`; a `limit` beyond the log size yields the whole
log without error. -/
theorem list_limit_suffix :
    ∀ (log : List InboundRecord) (limit : Int), 0 < limit →
      get_notifications log limit <:+ log ∧
      (get_notifications log limit).length = min limit.toNat log.length := by
  intro log limit hpos
  have hdrop : get_notifications log limit = log.drop (log.length - limit.toNat) := by
    unfold get_notifications pySliceFrom
    have hidx : (if (-limit) < 0 then max ((log.length : Int) + -limit) 0
        else min (-limit) (log.length : Int)).toNat = log.length - limit.toNat := by
      rw [if_pos (by omega)]
      omega
    show List.drop (if (-limit) < 0 then max ((log.length : Int) + -limit) 0
        else min (-limit) (log.length : Int)).toNat log = _
    rw [hidx]
  rw [hdrop]
  refine ⟨List.drop_suffix _ _, ?_⟩
  rw [List.length_drop]
  omega

/-- C7 (witness): limit 1 on a two-entry log picks the newest entry; limit
5 returns the whole log. -/
theorem list_limit_suffix_witness :
    get_notifications [⟨"r1", ⟨"success", 1, "e", "t1"⟩⟩, ⟨"r2", ⟨"success", 2, "e", "t2"⟩⟩] 1
      <:+ [⟨"r1", ⟨"success", 1, "e", "t1"⟩⟩, ⟨"r2", ⟨"success", 2, "e", "t2"⟩⟩] ∧
    (get_notifications [⟨"r1", ⟨"success", 1, "e", "t1"⟩⟩, ⟨"r2", ⟨"success", 2, "e", "t2"⟩⟩]
        5).length = min (5 : Int).toNat 2 :=
  ⟨(list_limit_suffix [⟨"r1", ⟨"success", 1, "e", "t1"⟩⟩, ⟨"r2", ⟨"success", 2, "e", "t2"⟩⟩]
      1 (by decide)).1,
   (list_limit_suffix [⟨"r1", ⟨"success", 1, "e", "t1"⟩⟩, ⟨"r2", ⟨"success", 2, "e", "t2"⟩⟩]
      5 (by decide)).2⟩

/-- C8: the handler returns the Python slice `received_notifications[-limit:]`,
so `limit = 0` yields the entire log (the slice start is `-0 = 0`) and
`limit = -k` for `k > 0` yields every entry except the `k` oldest. -/
theorem list_nonpositive_limit :
    ∀ (log : List InboundRecord),
      get_notifications log 0 = log ∧
      ∀ (k : Nat), 0 < k → get_notifications log (-(k : Int)) = log.drop k := by
  intro log
  constructor
  · simp [get_notifications, pySliceFrom]
  · intro k _
    unfold get_notifications pySliceFrom
    have hidx : (if (-(-(k : Int))) < 0 then max ((log.length : Int) + -(-(k : Int))) 0
        else min (-(-(k : Int))) (log.length : Int)).toNat = min k log.length := by
      rw [if_neg (by omega)]
      omega
    show List.drop (if (-(-(k : Int))) < 0 then max ((log.length : Int) + -(-(k : Int))) 0
        else min (-(-(k : Int))) (log.length : Int)).toNat log = _
    rw [hidx, drop_min_length]

/-- C8 (witness): limit 0 returns both entries, limit −1 drops the oldest. -/
theorem list_nonpositive_limit_witness :
    get_notifications [⟨"r1", ⟨"success", 1, "e", "t1"⟩⟩, ⟨"r2", ⟨"success", 2, "e", "t2"⟩⟩] 0
      = [⟨"r1", ⟨"success", 1, "e", "t1"⟩⟩, ⟨"r2", ⟨"success", 2, "e", "t2"⟩⟩] ∧
    get_notifications [⟨"r1", ⟨"success", 1, "e", "t1"⟩⟩, ⟨"r2", ⟨"success", 2, "e", "t2"⟩⟩]
        (-(1 : Int))
      = [⟨"r1", ⟨"success", 1, "e", "t1"⟩⟩, ⟨"r2", ⟨"success", 2, "e", "t2"⟩⟩].drop 1 :=
  ⟨(list_nonpositive_limit [⟨"r1", ⟨"success", 1, "e", "t1"⟩⟩,
      ⟨"r2", ⟨"success", 2, "e", "t2"⟩⟩]).1,
   (list_nonpositive_limit [⟨"r1", ⟨"success", 1, "e", "t1"⟩⟩,
      ⟨"r2", ⟨"success", 2, "e", "t2"⟩⟩]).2 1 (by decide)⟩

/-- C10: delivering for an active subscription whose stored `event_type` is
NULL posts a payload carrying `event_type: null`; that payload fails the
Listener's validation (`event_type` must be a string), so `/receive`
rejects it with a validation error and appends nothing to the log. -/
theorem null_event_type_rejected :
    ∀ (db : Store) (sub_id : Nat) (nowIso : String)
      (post : String → NotificationPayload → Except String Unit) (s : Subscription)
      (log : List InboundRecord) (lnow : String),
      db.find? (fun x => x.id == sub_id) = some s →
      s.is_active = true → s.event_type = none →
      (notify_subscription db sub_id nowIso post).2.1
          = [(s.notification_url, ⟨"success", sub_id, none, nowIso⟩)] ∧
      receive_notification log (payloadToRaw ⟨"success", sub_id, none, nowIso⟩) lnow
          = (.error validationFailed, log) := by
  intro db sub_id nowIso post s log lnow hfind hact het
  constructor
  · rcases hp : post s.notification_url ⟨"success", sub_id, s.event_type, nowIso⟩ with e | v <;>
      simp [notify_subscription, hfind, hact, het, het ▸ hp]
  · simp [receive_notification, payloadToRaw, parseNotification]

/-- C10 (witness): a NULL-`event_type` delivery and its rejection at the
Listener, on concrete inputs. -/
theorem null_event_type_rejected_witness :
    (notify_subscription [⟨1, "http://cb", none, 0, true⟩] 1 "ts" (fun _ _ => .ok ())).2.1
        = [("http://cb", ⟨"success", 1, none, "ts"⟩)] ∧
    receive_notification [] (payloadToRaw ⟨"success", 1, none, "ts"⟩) "r1"
        = (.error validationFailed, []) :=
  null_event_type_rejected [⟨1, "http://cb", none, 0, true⟩] 1 "ts" (fun _ _ => .ok ())
    ⟨1, "http://cb", none, 0, true⟩ [] "r1" rfl rfl rfl

end SubApi
